import Mathlib

/-!
Verification development for `comfy_api_simplified/comfy_api_wrapper.py`
(class `ComfyApiWrapper`).

The embedding models:
* the websocket completion-wait loop of `queue_prompt_and_wait`
  (lines 96-118) as a step function over an incoming message list;
* the HTTP submission path `queue_prompt` (lines 57-69) together with the
  `prompt_id` extraction done by `queue_prompt_and_wait` (line 87);
* the queue-position computation `get_queue_size_before` (lines 214-224);
* the output collection of `queue_and_wait_images` (lines 145-178).

Network transport, logging and the workflow-wrapper collaborator are outside
the embedding: HTTP responses, queue snapshots, history records and the
incoming websocket messages are inputs, and the artifact fetch `get_image`
is a function parameter.
-/

namespace ComfyApi

/-- A JSON text frame received on the websocket, restricted to the fields the
wait loop of `queue_prompt_and_wait` reads.  Each field is `none` when the
corresponding key (or, for `queue_remaining`, any key of the nested chain
`data["status"]["exec_info"]["queue_remaining"]`) is absent from the JSON
object, so that reading it raises `KeyError`.  `node = some none` models a
present `"node"` key holding JSON `null` (Python `None`); `node = some (some s)`
a present key holding string `s`.  A `"data"` value that is absent or is not
itself an object also leaves the data fields `none`: the branch's first
access raises either way (a `KeyError`, or a `TypeError` on a non-object
`data`), and the step model reports both as its key-error outcome. -/
structure WsEvent where
  type : Option String
  node : Option (Option String)
  prompt_id : Option String
  queue_remaining : Option Nat
deriving DecidableEq

/-- One read of `websocket.recv()` under `asyncio.wait_for`: a timeout
(`asyncio.TimeoutError`); a non-text (binary) frame (`isinstance(out, str)`
is false); a text frame that is not valid JSON, on which `json.loads`
(line 100) raises `JSONDecodeError`; a text frame that parses to a
non-object JSON value (a number, string, array, ...), on which
`message["type"]` raises `TypeError`; or a text frame parsed to a JSON
object. -/
inductive WsMessage where
  | timeout : WsMessage
  | binary : WsMessage
  | invalidText : WsMessage
  | nonObjectText : WsMessage
  | text : WsEvent → WsMessage
deriving DecidableEq

/-- Outcome of one iteration of the `while True` loop of
`queue_prompt_and_wait`: continue looping, `return prompt_id`,
`raise Exception("Execution error occurred.")`, an uncaught `KeyError`
from a missing field (this also stands for the `TypeError` raised when a
present `data` value is not an object, which the event model folds into
absent fields), an uncaught `JSONDecodeError` from `json.loads`, or an
uncaught `TypeError` from indexing a non-object message. -/
inductive StepResult where
  | next : StepResult
  | ret : String → StepResult
  | execError : StepResult
  | keyError : StepResult
  | decodeError : StepResult
  | typeError : StepResult
deriving DecidableEq

/-- One iteration of the wait loop of `queue_prompt_and_wait`
(`comfy_api_wrapper.py` lines 96-118), classifying a single received
message against the in-flight `prompt_id`.  Mirrors the source order:
timeouts and binary frames fall through to the next read; a text frame has
`message["type"]` read first; `"crystools.monitor"` is skipped; then the
`execution_error`, `status` and `executing` branches read their `data`
fields exactly as the source does (in particular `data["prompt_id"]` of an
`executing` event is only read when `data["node"] is None`, because Python
`and` short-circuits). -/
def process_message (prompt_id : String) : WsMessage → StepResult
  | .timeout => .next
  | .binary => .next
  | .invalidText => .decodeError
  | .nonObjectText => .typeError
  | .text e =>
    match e.type with
    | none => .keyError
    | some t =>
      if t = "crystools.monitor" then .next
      else if t = "execution_error" then
        match e.prompt_id with
        | none => .keyError
        | some p => if p = prompt_id then .execError else .next
      else if t = "status" then
        match e.queue_remaining with
        | none => .keyError
        | some q => if q = 0 then .ret prompt_id else .next
      else if t = "executing" then
        match e.node with
        | none => .keyError
        | some (some _) => .next
        | some none =>
          match e.prompt_id with
          | none => .keyError
          | some p => if p = prompt_id then .ret prompt_id else .next
      else .next

/-- How the wait of `queue_prompt_and_wait` can end: a successful
`return prompt_id`, the raised execution-error `Exception`, an uncaught
`KeyError` on a malformed event, an uncaught `JSONDecodeError` on an
unparseable text frame, or an uncaught `TypeError` on a non-object text
frame. -/
inductive WaitOutcome where
  | success : String → WaitOutcome
  | execError : WaitOutcome
  | keyError : WaitOutcome
  | decodeError : WaitOutcome
  | typeError : WaitOutcome
deriving DecidableEq

/-- The wait loop of `queue_prompt_and_wait` run over a (finite prefix of
the) incoming message stream: process messages in order until one is
terminal.  `none` means every supplied message was consumed without the
loop ending — the source loop would simply keep reading. -/
def wait_loop (prompt_id : String) : List WsMessage → Option WaitOutcome
  | [] => none
  | m :: ms =>
    match process_message prompt_id m with
    | .next => wait_loop prompt_id ms
    | .ret p => some (.success p)
    | .execError => some .execError
    | .keyError => some .keyError
    | .decodeError => some .decodeError
    | .typeError => some .typeError

theorem wait_loop_cons_next {prompt_id : String} {m : WsMessage}
    (h : process_message prompt_id m = .next) (ms : List WsMessage) :
    wait_loop prompt_id (m :: ms) = wait_loop prompt_id ms := by
  simp [wait_loop, h]

/-- C2: an `execution_error` event whose `prompt_id` equals the in-flight
job's identifier makes `queue_prompt_and_wait` raise (the wait ends in
`WaitOutcome.execError`, never a `success`); an `execution_error` event with
a different `prompt_id` is ignored and the loop continues with the rest of
the stream. -/
theorem execution_error_semantics (prompt_id other : String)
    (hne : other ≠ prompt_id) (n : Option (Option String)) (q : Option Nat)
    (rest : List WsMessage) :
    wait_loop prompt_id (.text ⟨some "execution_error", n, some prompt_id, q⟩ :: rest)
      = some .execError
    ∧ (∀ s, (some WaitOutcome.execError : Option WaitOutcome) ≠ some (.success s))
    ∧ wait_loop prompt_id (.text ⟨some "execution_error", n, some other, q⟩ :: rest)
      = wait_loop prompt_id rest := by
  refine ⟨?_, by simp, ?_⟩
  · simp [wait_loop, process_message]
  · simp [wait_loop, process_message, hne]

theorem execution_error_semantics_witness :
    "b" ≠ "a"
    ∧ wait_loop "a" [.text ⟨some "execution_error", none, some "a", none⟩]
        = some .execError
    ∧ wait_loop "a" [.text ⟨some "execution_error", none, some "b", none⟩]
        = wait_loop "a" [] := by
  have h := execution_error_semantics "a" "b" (by decide) none none []
  exact ⟨by decide, h.1, h.2.2⟩

/-- C3: a `status` event whose `queue_remaining` counter is `0` makes
`queue_prompt_and_wait` return the submitted job's `prompt_id`, whatever the
event's own `prompt_id` field is; a `status` event with a non-zero counter
does not terminate the wait. -/
theorem status_event_semantics (prompt_id : String) (n : Option (Option String))
    (p : Option String) (q : Nat) (rest : List WsMessage) :
    wait_loop prompt_id (.text ⟨some "status", n, p, some 0⟩ :: rest)
      = some (.success prompt_id)
    ∧ (q ≠ 0 →
        wait_loop prompt_id (.text ⟨some "status", n, p, some q⟩ :: rest)
          = wait_loop prompt_id rest) := by
  constructor
  · simp [wait_loop, process_message]
  · intro hq
    simp [wait_loop, process_message, hq]

theorem status_event_semantics_witness :
    wait_loop "a" [.text ⟨some "status", none, some "b", some 0⟩]
      = some (.success "a")
    ∧ (7 ≠ 0)
    ∧ wait_loop "a" [.text ⟨some "status", none, some "b", some 7⟩]
      = wait_loop "a" [] := by
  have h := status_event_semantics "a" none (some "b") 7 []
  exact ⟨h.1, by decide, h.2 (by decide)⟩

/-- C1 (counterexample): an `executing` event whose `"node"` key is ABSENT
and whose `prompt_id` matches does not resolve the wait with the job
identifier — `data["node"]` raises `KeyError`, so the wait crashes. -/
theorem executing_absent_node_crashes :
    wait_loop "p" [.text ⟨some "executing", none, some "p", none⟩]
        = some .keyError
    ∧ (some WaitOutcome.keyError : Option WaitOutcome)
        ≠ some (.success "p") := by
  constructor
  · simp [wait_loop, process_message]
  · simp

/-- C1 (amended): an `executing` event whose `"node"` field is present and
null and whose `prompt_id` equals the in-flight job's identifier resolves
the wait with exactly that identifier; an `executing` event with a non-null
node (whatever its `prompt_id` field, which is then not even read) or with a
null node but a different `prompt_id` does not terminate the wait. -/
theorem executing_event_semantics (prompt_id other s : String)
    (hne : other ≠ prompt_id) (q : Option Nat) (rest : List WsMessage) :
    wait_loop prompt_id (.text ⟨some "executing", some none, some prompt_id, q⟩ :: rest)
      = some (.success prompt_id)
    ∧ (∀ p, wait_loop prompt_id (.text ⟨some "executing", some (some s), p, q⟩ :: rest)
        = wait_loop prompt_id rest)
    ∧ wait_loop prompt_id (.text ⟨some "executing", some none, some other, q⟩ :: rest)
      = wait_loop prompt_id rest := by
  refine ⟨?_, fun p => ?_, ?_⟩
  · simp [wait_loop, process_message]
  · simp [wait_loop, process_message]
  · simp [wait_loop, process_message, hne]

theorem executing_event_semantics_witness :
    "b" ≠ "a"
    ∧ wait_loop "a" [.text ⟨some "executing", some none, some "a", none⟩]
        = some (.success "a")
    ∧ wait_loop "a" [.text ⟨some "executing", some (some "3"), none, none⟩]
        = wait_loop "a" []
    ∧ wait_loop "a" [.text ⟨some "executing", some none, some "b", none⟩]
        = wait_loop "a" [] := by
  have h := executing_event_semantics "a" "b" "3" (by decide) none []
  exact ⟨by decide, h.1, h.2.1 none, h.2.2⟩

/-- C9: the event classifier is partial on malformed events of recognized
types — a `status` event lacking the nested
`status.exec_info.queue_remaining` chain, an `executing` event lacking the
`node` field, and an `execution_error` event lacking the `prompt_id` field
each make the wait raise a `KeyError` (ending the loop) instead of being
ignored. -/
theorem malformed_recognized_events_crash :
    wait_loop "p" [.text ⟨some "status", none, none, none⟩] = some .keyError
    ∧ wait_loop "p" [.text ⟨some "executing", none, none, none⟩] = some .keyError
    ∧ wait_loop "p" [.text ⟨some "execution_error", none, none, none⟩] = some .keyError := by
  refine ⟨?_, ?_, ?_⟩ <;> simp [wait_loop, process_message]

/-- A received message the loop body of `queue_prompt_and_wait` merely skips:
a read timeout, a binary frame, a `"crystools.monitor"` heartbeat, or a text
event whose type is none of the recognized `execution_error` / `status` /
`executing` (but is present, so `message["type"]` succeeds). -/
def benign : WsMessage → Bool
  | .timeout => true
  | .binary => true
  | .invalidText => false
  | .nonObjectText => false
  | .text e =>
    match e.type with
    | none => false
    | some t =>
      t == "crystools.monitor"
        || (t != "execution_error" && t != "status" && t != "executing")

/-- The three event shapes the spec lists as able to end the wait: a
matching `execution_error`, a zero-`queue_remaining` `status`, and a
matching null-node `executing` event. -/
def terminal_event (prompt_id : String) (e : WsEvent) : Prop :=
  (e.type = some "execution_error" ∧ e.prompt_id = some prompt_id)
  ∨ (e.type = some "status" ∧ e.queue_remaining = some 0)
  ∨ (e.type = some "executing" ∧ e.node = some none ∧ e.prompt_id = some prompt_id)

/-- A text event on which a field read of the loop body raises `KeyError`:
the `type` key is absent, or a recognized type lacks the field(s) its branch
reads (for `executing`, `prompt_id` is only read once `node` was null). -/
def malformed_event (e : WsEvent) : Prop :=
  e.type = none
  ∨ (e.type = some "execution_error" ∧ e.prompt_id = none)
  ∨ (e.type = some "status" ∧ e.queue_remaining = none)
  ∨ (e.type = some "executing"
      ∧ (e.node = none ∨ (e.node = some none ∧ e.prompt_id = none)))

theorem benign_next (prompt_id : String) (m : WsMessage) (h : benign m = true) :
    process_message prompt_id m = .next := by
  cases m with
  | timeout => rfl
  | binary => rfl
  | invalidText => simp [benign] at h
  | nonObjectText => simp [benign] at h
  | text e =>
    obtain ⟨ty, nd, pi, qr⟩ := e
    cases ty with
    | none => simp [benign] at h
    | some t =>
      by_cases hc : t = "crystools.monitor"
      · simp [process_message, hc]
      by_cases h1 : t = "execution_error"
      · subst h1; simp [benign] at h
      by_cases h2 : t = "status"
      · subst h2; simp [benign] at h
      by_cases h3 : t = "executing"
      · subst h3; simp [benign] at h
      simp [process_message, hc, h1, h2, h3]

theorem shape_of_step (prompt_id : String) (m : WsMessage)
    (h : process_message prompt_id m ≠ .next) :
    m = .invalidText ∨ m = .nonObjectText
    ∨ ∃ e, m = .text e ∧ (terminal_event prompt_id e ∨ malformed_event e) := by
  cases m with
  | timeout => exact absurd rfl h
  | binary => exact absurd rfl h
  | invalidText => exact Or.inl rfl
  | nonObjectText => exact Or.inr (Or.inl rfl)
  | text e =>
    refine Or.inr (Or.inr ⟨e, rfl, ?_⟩)
    obtain ⟨ty, nd, pi, qr⟩ := e
    cases ty with
    | none => exact Or.inr (Or.inl rfl)
    | some t =>
      by_cases hc : t = "crystools.monitor"
      · exact absurd (by simp [process_message, hc]) h
      by_cases h1 : t = "execution_error"
      · subst h1
        cases pi with
        | none => exact Or.inr (Or.inr (Or.inl ⟨rfl, rfl⟩))
        | some p =>
          by_cases hp : p = prompt_id
          · subst hp
            exact Or.inl (Or.inl ⟨rfl, rfl⟩)
          · exact absurd (by simp [process_message, hc, hp]) h
      by_cases h2 : t = "status"
      · subst h2
        cases qr with
        | none => exact Or.inr (Or.inr (Or.inr (Or.inl ⟨rfl, rfl⟩)))
        | some q =>
          by_cases hq : q = 0
          · subst hq
            exact Or.inl (Or.inr (Or.inl ⟨rfl, rfl⟩))
          · exact absurd (by simp [process_message, hc, hq]) h
      by_cases h3 : t = "executing"
      · subst h3
        match nd with
        | none => exact Or.inr (Or.inr (Or.inr (Or.inr ⟨rfl, Or.inl rfl⟩)))
        | some (some s) => exact absurd (by simp [process_message, hc]) h
        | some none =>
          cases pi with
          | none =>
            exact Or.inr (Or.inr (Or.inr (Or.inr ⟨rfl, Or.inr ⟨rfl, rfl⟩⟩)))
          | some p =>
            by_cases hp : p = prompt_id
            · subst hp
              exact Or.inl (Or.inr (Or.inr ⟨rfl, rfl, rfl⟩))
            · exact absurd (by simp [process_message, hc, hp]) h
      · exact absurd (by simp [process_message, hc, h1, h2, h3]) h

/-- C4 (counterexample): two messages end the wait loop although they are
none of the three event shapes the claim lists as the only possible enders
and are not skipped as benign: a text frame that is not valid JSON (the
`json.loads` of line 100 raises `JSONDecodeError`), and a `status` event
lacking the nested `queue_remaining` chain (a `KeyError`). -/
theorem non_listed_event_ends_loop :
    wait_loop "p" [.invalidText] = some .decodeError
    ∧ (∀ e, WsMessage.invalidText ≠ .text e)
    ∧ benign .invalidText = false
    ∧ wait_loop "p" [.text ⟨some "status", none, none, none⟩] = some .keyError
    ∧ ¬ terminal_event "p" ⟨some "status", none, none, none⟩
    ∧ benign (.text ⟨some "status", none, none, none⟩) = false := by
  refine ⟨by simp [wait_loop, process_message], fun e => by simp, by decide,
    by simp [wait_loop, process_message], ?_, by decide⟩
  unfold terminal_event
  decide

/-- C4 (amended): the wait loop of `queue_prompt_and_wait` never terminates
on timeouts, binary frames, heartbeats or parsed events of unrecognized
type — any number of them, in any order, leaves the wait exactly where it
was — and every run that does end consumed a message that is one of: an
unparseable text frame (`json.loads` raises), a non-object JSON text frame
(`message["type"]` raises), one of the three listed terminal shapes
(matching `execution_error`, zero `queue_remaining` `status`, matching
null-node `executing`), or a malformed event of recognized type (or missing
`type`) whose field access raises. -/
theorem wait_loop_benign_and_enders (prompt_id : String) :
    (∀ junk rest, (∀ m ∈ junk, benign m = true) →
      wait_loop prompt_id (junk ++ rest) = wait_loop prompt_id rest)
    ∧ (∀ ms o, wait_loop prompt_id ms = some o →
        ∃ m ∈ ms, m = .invalidText ∨ m = .nonObjectText
          ∨ ∃ e, m = .text e
            ∧ (terminal_event prompt_id e ∨ malformed_event e)) := by
  constructor
  · intro junk rest hj
    induction junk with
    | nil => simp
    | cons m junk ih =>
      have hb : benign m = true := hj m (List.mem_cons_self m junk)
      rw [List.cons_append, wait_loop_cons_next (benign_next prompt_id m hb)]
      exact ih fun m' hm' => hj m' (List.mem_cons_of_mem m hm')
  · intro ms
    induction ms with
    | nil => intro o h; simp [wait_loop] at h
    | cons m ms ih =>
      intro o h
      by_cases hm : process_message prompt_id m = .next
      · obtain ⟨m', hm', he⟩ := ih o ((wait_loop_cons_next hm ms) ▸ h)
        exact ⟨m', List.mem_cons_of_mem m hm', he⟩
      · exact ⟨m, List.mem_cons_self _ _, shape_of_step prompt_id m hm⟩

theorem wait_loop_benign_and_enders_witness :
    wait_loop "p" ([.timeout, .binary,
        .text ⟨some "crystools.monitor", none, none, none⟩,
        .text ⟨some "progress", none, none, some 3⟩] ++
        [.text ⟨some "status", none, none, some 0⟩])
      = wait_loop "p" [.text ⟨some "status", none, none, some 0⟩]
    ∧ ∃ m ∈ [WsMessage.text ⟨some "status", none, none, some 0⟩],
        m = WsMessage.invalidText ∨ m = WsMessage.nonObjectText
        ∨ ∃ e, m = WsMessage.text e
          ∧ (terminal_event "p" e ∨ malformed_event e) := by
  have h := wait_loop_benign_and_enders "p"
  refine ⟨h.1 _ _ (by decide), h.2 _ (.success "p") ?_⟩
  simp [wait_loop, process_message]

/-! ### Submission: `queue_prompt` and the `prompt_id` extraction -/

/-- The body of the POST `/prompt` request, as built by `queue_prompt`
lines 57-59: `p = {"prompt": prompt}` and, only when `client_id` is truthy
(Python `if client_id:`, so neither `None` nor the empty string),
`p["client_id"] = client_id`.  The prompt itself is opaque here; the list
records the JSON keys and their values in insertion order. -/
def build_payload (prompt : String) (client_id : Option String) :
    List (String × String) :=
  match client_id with
  | none => [("prompt", prompt)]
  | some c =>
    if c != "" then [("prompt", prompt), ("client_id", c)]
    else [("prompt", prompt)]

/-- The parsed JSON body of the server's response to POST `/prompt`,
restricted to the field the client reads: `prompt_id` is `none` when the
key is absent. -/
structure PromptBody where
  prompt_id : Option String
deriving DecidableEq

/-- An HTTP response to the submission POST as `queue_prompt` sees it. -/
structure PromptResponse where
  status_code : Nat
  reason : String
  body : PromptBody
deriving DecidableEq

/-- How the submission path can fail: the `Exception` raised by
`queue_prompt` for a non-200 status (carrying the status code and reason,
lines 66-69), or the `KeyError` raised at `resp["prompt_id"]` in
`queue_prompt_and_wait` line 87 when the field is absent. -/
inductive SubmitError where
  | transport : Nat → String → SubmitError
  | protocol : SubmitError
deriving DecidableEq

/-- `queue_prompt` (lines 62-69): return the parsed body on a 200 response,
raise a transport error carrying status code and reason otherwise. -/
def queue_prompt (resp : PromptResponse) : Except SubmitError PromptBody :=
  if resp.status_code = 200 then .ok resp.body
  else .error (.transport resp.status_code resp.reason)

/-- `resp["prompt_id"]` as performed by `queue_prompt_and_wait` line 87:
a `KeyError` (protocol error) when the field is absent. -/
def extract_prompt_id (body : PromptBody) : Except SubmitError String :=
  match body.prompt_id with
  | some pid => .ok pid
  | none => .error .protocol

/-- The submission path of `queue_prompt_and_wait` lines 85-87:
`queue_prompt` followed by the `prompt_id` lookup. -/
def submit_prompt (resp : PromptResponse) : Except SubmitError String :=
  (queue_prompt resp).bind extract_prompt_id

/-- C5: the submission path fails with a transport error carrying the
response's status code and reason on every non-200 status; on a 200
response whose body lacks `prompt_id` it fails with the protocol
(`KeyError`) error; and on a 200 response carrying `prompt_id` it returns
exactly that identifier. -/
theorem queue_prompt_submission (resp : PromptResponse) :
    (resp.status_code ≠ 200 →
      submit_prompt resp = .error (.transport resp.status_code resp.reason))
    ∧ (resp.status_code = 200 → resp.body.prompt_id = none →
        submit_prompt resp = .error .protocol)
    ∧ (∀ pid, resp.status_code = 200 → resp.body.prompt_id = some pid →
        submit_prompt resp = .ok pid) := by
  refine ⟨fun h => ?_, fun h hb => ?_, fun pid h hb => ?_⟩
  · simp [submit_prompt, queue_prompt, Except.bind, h]
  · simp [submit_prompt, queue_prompt, Except.bind, extract_prompt_id, h, hb]
  · simp [submit_prompt, queue_prompt, Except.bind, extract_prompt_id, h, hb]

theorem queue_prompt_submission_witness :
    submit_prompt ⟨404, "Not Found", ⟨some "x"⟩⟩
        = .error (.transport 404 "Not Found")
    ∧ submit_prompt ⟨200, "OK", ⟨none⟩⟩ = .error .protocol
    ∧ submit_prompt ⟨200, "OK", ⟨some "abc"⟩⟩ = .ok "abc" :=
  ⟨(queue_prompt_submission ⟨404, "Not Found", ⟨some "x"⟩⟩).1 (by decide),
   (queue_prompt_submission ⟨200, "OK", ⟨none⟩⟩).2.1 rfl rfl,
   (queue_prompt_submission ⟨200, "OK", ⟨some "abc"⟩⟩).2.2 "abc" rfl rfl⟩

/-- C10: the posted body contains the `"client_id"` key iff the given
correlation identifier is truthy (present and non-empty); for `None` or the
empty string the body is `{"prompt": ...}` only, and an empty-string
`client_id` produces exactly the payload produced by omitting it. -/
theorem build_payload_client_id (prompt : String) (client_id : Option String) :
    ("client_id" ∈ (build_payload prompt client_id).map Prod.fst ↔
      ∃ c, client_id = some c ∧ c ≠ "")
    ∧ build_payload prompt none = [("prompt", prompt)]
    ∧ build_payload prompt (some "") = build_payload prompt none := by
  refine ⟨?_, rfl, rfl⟩
  match client_id with
  | none => simp [build_payload]
  | some c =>
    by_cases hc : c = ""
    · subst hc; simp [build_payload]
    · simp [build_payload, hc]

theorem build_payload_client_id_witness :
    ("client_id" ∈ (build_payload "w" (some "cid")).map Prod.fst ↔
      ∃ c, (some "cid" : Option String) = some c ∧ c ≠ "")
    ∧ build_payload "w" (some "") = build_payload "w" none :=
  ⟨(build_payload_client_id "w" (some "cid")).1,
   (build_payload_client_id "w" (some "")).2.2⟩

/-! ### Queue inspection: `get_queue_size_before` -/

/-- The parsed GET `/queue` response: two ordered sequences of queue
entries.  An entry is the server's tuple, modelled as its list of fields;
the job identifier sits at index 1 (`elem[1]`). -/
structure ComfyQueue where
  queue_running : List (List String)
  queue_pending : List (List String)
deriving DecidableEq

/-- The comparison `elem[1] == prompt_id` performed on a queue entry. -/
def entry_matches (prompt_id : String) (elem : List String) : Bool :=
  elem[1]? == some prompt_id

/-- The second loop of `get_queue_size_before` (lines 219-223): scan the
pending entries with the running counter `result`, returning the counter at
the first match; `none` models the final `raise ValueError`. -/
def pending_scan (prompt_id : String) : Nat → List (List String) → Option Nat
  | _, [] => none
  | result, elem :: rest =>
    if entry_matches prompt_id elem then some result
    else pending_scan prompt_id (result + 1) rest

/-- `get_queue_size_before` (lines 214-224): `some 0` when the job is in
`queue_running`, otherwise the 1-based position of its first occurrence in
`queue_pending`; `none` models the `ValueError` when it is in neither. -/
def get_queue_size_before (q : ComfyQueue) (prompt_id : String) : Option Nat :=
  if q.queue_running.any (entry_matches prompt_id) then some 0
  else pending_scan prompt_id 1 q.queue_pending

theorem pending_scan_eq_findIdx (prompt_id : String) (l : List (List String))
    (s : Nat) :
    pending_scan prompt_id s l = l.findIdx? (entry_matches prompt_id) s := by
  induction l generalizing s with
  | nil => rfl
  | cons e rest ih =>
    rw [pending_scan, List.findIdx?_cons, ih]

/-- C6: `get_queue_size_before` returns `0` iff the job identifier appears
at index 1 of some tuple of the running sequence; when it does not, the
result is the 1-based index of the first matching entry of the pending
sequence (an expression in the pending sequence alone, hence independent of
the running contents); and the `ValueError` (`none`) happens iff the
identifier matches in neither sequence. -/
theorem get_queue_size_before_spec (q : ComfyQueue) (prompt_id : String) :
    (get_queue_size_before q prompt_id = some 0 ↔
      q.queue_running.any (entry_matches prompt_id) = true)
    ∧ (q.queue_running.any (entry_matches prompt_id) = false →
        get_queue_size_before q prompt_id
          = (q.queue_pending.findIdx? (entry_matches prompt_id)).map (· + 1))
    ∧ (get_queue_size_before q prompt_id = none ↔
        q.queue_running.any (entry_matches prompt_id) = false
        ∧ q.queue_pending.any (entry_matches prompt_id) = false) := by
  have hmain : q.queue_running.any (entry_matches prompt_id) = false →
      get_queue_size_before q prompt_id
        = (q.queue_pending.findIdx? (entry_matches prompt_id)).map (· + 1) := by
    intro hr
    rw [get_queue_size_before, if_neg (by simp [hr]),
      pending_scan_eq_findIdx, List.findIdx?_succ]
  refine ⟨?_, hmain, ?_⟩
  · cases hr : q.queue_running.any (entry_matches prompt_id) with
    | true => simp [get_queue_size_before, hr]
    | false =>
      rw [hmain hr]
      cases q.queue_pending.findIdx? (entry_matches prompt_id) <;> simp [hr]
  · cases hr : q.queue_running.any (entry_matches prompt_id) with
    | true => simp [get_queue_size_before, hr]
    | false =>
      rw [hmain hr]
      simp [List.findIdx?_eq_none_iff]

theorem get_queue_size_before_spec_witness :
    (get_queue_size_before ⟨[["0", "r"]], [["1", "a"], ["2", "p"]]⟩ "p"
        = some 2)
    ∧ (get_queue_size_before ⟨[["0", "p"]], []⟩ "p" = some 0)
    ∧ (get_queue_size_before ⟨[["0", "r"]], [["1", "a"]]⟩ "p" = none) := by
  have h1 := (get_queue_size_before_spec ⟨[["0", "r"]], [["1", "a"], ["2", "p"]]⟩ "p").2.1
    (by decide)
  have h2 := (get_queue_size_before_spec ⟨[["0", "p"]], []⟩ "p").1.2 (by decide)
  have h3 := (get_queue_size_before_spec ⟨[["0", "r"]], [["1", "a"]]⟩ "p").2.2.2
    ⟨by decide, by decide⟩
  refine ⟨?_, h2, h3⟩
  rw [h1]
  decide

/-! ### Output collection: `queue_and_wait_images` lines 145-178 -/

/-- One artifact descriptor of a history output list: the
`{"filename", "subfolder", "type"}` triple. -/
structure Artifact where
  filename : String
  subfolder : String
  type : String
deriving DecidableEq

/-- A history output entry for one node, with each of the three recognized
artifact-list keys present (`some`) or absent (`none`). -/
structure OutputData where
  images : Option (List Artifact)
  gifs : Option (List Artifact)
  videos : Option (List Artifact)
deriving DecidableEq

/-- One history record: its `"outputs"` mapping (absent when the record
lacks an outputs section), keyed by output-node identifier. -/
structure HistoryEntry where
  outputs : Option (List (String × OutputData))
deriving DecidableEq

/-- The GET `/history/{prompt_id}` response: records keyed by job
identifier. -/
abbrev History := List (String × HistoryEntry)

/-- The `KeyError` raised by the four guard branches of
`queue_and_wait_images` (lines 145-152 and 177-178). -/
inductive CollectError where
  | notFound : CollectError
deriving DecidableEq

/-- One dictionary comprehension of `queue_and_wait_images` (lines 156-176):
map each artifact's filename to the bytes `get_image` returns for its
`(filename, subfolder, type)` triple.  The fetcher is a parameter `view`
with an arbitrary result type standing for the returned bytes. -/
def fetch_artifacts {β : Type} (view : String → String → String → β)
    (arts : List Artifact) : List (String × β) :=
  arts.map fun a => (a.filename, view a.filename a.subfolder a.type)

/-- The output-collection phase of `queue_and_wait_images` (lines 145-178),
given the fetched history, the completed job's `prompt_id` and the node
identifier the workflow wrapper resolved from the output node title:
guard that the job is in the history, that its record has outputs and that
the node is among them, then pick the artifact list by the source's
`images` / `gifs` / `videos` if-elif priority and fetch every artifact. -/
def queue_and_wait_images {β : Type} (view : String → String → String → β)
    (history : History) (prompt_id output_node_id : String) :
    Except CollectError (List (String × β)) :=
  match history.lookup prompt_id with
  | none => .error .notFound
  | some entry =>
    match entry.outputs with
    | none => .error .notFound
    | some outs =>
      match outs.lookup output_node_id with
      | none => .error .notFound
      | some output_data =>
        match output_data.images with
        | some arts => .ok (fetch_artifacts view arts)
        | none =>
          match output_data.gifs with
          | some arts => .ok (fetch_artifacts view arts)
          | none =>
            match output_data.videos with
            | some arts => .ok (fetch_artifacts view arts)
            | none => .error .notFound

/-- C7: once the history guards pass, the artifact list is chosen by the
fixed first-match priority `images`, then `gifs`, then `videos` — in
particular `images` wins whenever present, whatever the other two keys
hold — and the result maps each chosen artifact's filename to the bytes
fetched for its `(filename, subfolder, type)` triple. -/
theorem queue_and_wait_images_priority {β : Type}
    (view : String → String → String → β) (history : History)
    (prompt_id output_node_id : String) (entry : HistoryEntry)
    (outs : List (String × OutputData)) (output_data : OutputData)
    (h1 : history.lookup prompt_id = some entry)
    (h2 : entry.outputs = some outs)
    (h3 : outs.lookup output_node_id = some output_data) :
    (∀ arts, output_data.images = some arts →
      queue_and_wait_images view history prompt_id output_node_id
        = .ok (arts.map fun a => (a.filename, view a.filename a.subfolder a.type)))
    ∧ (∀ arts, output_data.images = none → output_data.gifs = some arts →
        queue_and_wait_images view history prompt_id output_node_id
          = .ok (arts.map fun a => (a.filename, view a.filename a.subfolder a.type)))
    ∧ (∀ arts, output_data.images = none → output_data.gifs = none →
        output_data.videos = some arts →
        queue_and_wait_images view history prompt_id output_node_id
          = .ok (arts.map fun a => (a.filename, view a.filename a.subfolder a.type))) := by
  refine ⟨fun arts hi => ?_, fun arts hi hg => ?_, fun arts hi hg hv => ?_⟩
  · simp [queue_and_wait_images, h1, h2, h3, hi, fetch_artifacts]
  · simp [queue_and_wait_images, h1, h2, h3, hi, hg, fetch_artifacts]
  · simp [queue_and_wait_images, h1, h2, h3, hi, hg, hv, fetch_artifacts]

theorem queue_and_wait_images_priority_witness :
    queue_and_wait_images (fun f s t => f ++ "|" ++ s ++ "|" ++ t)
        [("p1", ⟨some [("7",
          ⟨some [⟨"a.png", "sub", "output"⟩],
           some [⟨"b.gif", "sub", "output"⟩], none⟩)]⟩)]
        "p1" "7"
      = .ok [("a.png", "a.png|sub|output")] := by
  have h := queue_and_wait_images_priority
    (fun f s t => f ++ "|" ++ s ++ "|" ++ t)
    [("p1", ⟨some [("7",
      ⟨some [⟨"a.png", "sub", "output"⟩],
       some [⟨"b.gif", "sub", "output"⟩], none⟩)]⟩)]
    "p1" "7"
    ⟨some [("7", ⟨some [⟨"a.png", "sub", "output"⟩],
      some [⟨"b.gif", "sub", "output"⟩], none⟩)]⟩
    [("7", ⟨some [⟨"a.png", "sub", "output"⟩],
      some [⟨"b.gif", "sub", "output"⟩], none⟩)]
    ⟨some [⟨"a.png", "sub", "output"⟩],
      some [⟨"b.gif", "sub", "output"⟩], none⟩
    (by decide) rfl (by decide)
  rw [h.1 [⟨"a.png", "sub", "output"⟩] rfl]
  rfl

theorem mem_of_lookup_eq_some {β : Type} {l : List (String × β)} {k : String}
    {b : β} (h : l.lookup k = some b) : (k, b) ∈ l := by
  obtain ⟨l₁, l₂, rfl, -⟩ := List.lookup_eq_some_iff.1 h
  exact List.mem_append_right _ (List.mem_cons_self _ _)

/-- C8: the collection phase fails with the `KeyError` (`NotFoundError`) iff
the job identifier is absent from the history, or its record lacks an
outputs section, or the resolved node is absent from the outputs, or the
node's entry has none of the `images` / `gifs` / `videos` keys; moreover a
failing collection fails identically under every artifact fetcher, so no
bytes it fetched can have influenced (or been part of) the outcome. -/
theorem queue_and_wait_images_not_found {β γ : Type}
    (view : String → String → String → β) (history : History)
    (prompt_id output_node_id : String) :
    (queue_and_wait_images view history prompt_id output_node_id
        = .error .notFound ↔
      history.lookup prompt_id = none
      ∨ (∃ entry, history.lookup prompt_id = some entry ∧ entry.outputs = none)
      ∨ (∃ entry outs, history.lookup prompt_id = some entry
          ∧ entry.outputs = some outs
          ∧ outs.lookup output_node_id = none)
      ∨ (∃ entry outs output_data, history.lookup prompt_id = some entry
          ∧ entry.outputs = some outs
          ∧ outs.lookup output_node_id = some output_data
          ∧ output_data.images = none ∧ output_data.gifs = none
          ∧ output_data.videos = none))
    ∧ (∀ view' : String → String → String → γ,
        queue_and_wait_images view history prompt_id output_node_id
          = .error .notFound →
        queue_and_wait_images view' history prompt_id output_node_id
          = .error .notFound) := by
  have hiff : ∀ {δ : Type} (w : String → String → String → δ),
      (queue_and_wait_images w history prompt_id output_node_id
          = .error .notFound ↔
        history.lookup prompt_id = none
        ∨ (∃ entry, history.lookup prompt_id = some entry ∧ entry.outputs = none)
        ∨ (∃ entry outs, history.lookup prompt_id = some entry
            ∧ entry.outputs = some outs
            ∧ outs.lookup output_node_id = none)
        ∨ (∃ entry outs output_data, history.lookup prompt_id = some entry
            ∧ entry.outputs = some outs
            ∧ outs.lookup output_node_id = some output_data
            ∧ output_data.images = none ∧ output_data.gifs = none
            ∧ output_data.videos = none)) := by
    intro δ w
    cases h1 : history.lookup prompt_id with
    | none => simp [queue_and_wait_images, h1]
    | some entry =>
      cases h2 : entry.outputs with
      | none => simp [queue_and_wait_images, h1, h2]
      | some outs =>
        cases h3 : outs.lookup output_node_id with
        | none =>
          simp [queue_and_wait_images, h1, h2, h3]
          intro a b hab
          have hh := List.lookup_eq_none_iff.1 h3 (a, b) hab
          simpa using hh
        | some output_data =>
          cases hi : output_data.images with
          | some arts =>
            simp [queue_and_wait_images, h1, h2, h3, hi]
            exact ⟨output_data, mem_of_lookup_eq_some h3⟩
          | none =>
            cases hg : output_data.gifs with
            | some arts =>
              simp [queue_and_wait_images, h1, h2, h3, hi, hg]
              exact ⟨output_data, mem_of_lookup_eq_some h3⟩
            | none =>
              cases hv : output_data.videos with
              | some arts =>
                simp [queue_and_wait_images, h1, h2, h3, hi, hg, hv]
                exact ⟨output_data, mem_of_lookup_eq_some h3⟩
              | none => simp [queue_and_wait_images, h1, h2, h3, hi, hg, hv]
  exact ⟨hiff view, fun view' h => (hiff view').2 ((hiff view).1 h)⟩

theorem queue_and_wait_images_not_found_witness :
    queue_and_wait_images (fun f s t => f ++ s ++ t)
        [("p1", ⟨some [("7", ⟨none, none, none⟩)]⟩)] "p1" "7"
      = .error .notFound
    ∧ queue_and_wait_images (fun _ _ _ => (0 : Nat))
        [("p1", ⟨some [("7", ⟨none, none, none⟩)]⟩)] "p1" "7"
      = .error .notFound := by
  have h := queue_and_wait_images_not_found (γ := Nat)
    (fun f s t => f ++ s ++ t)
    [("p1", ⟨some [("7", ⟨none, none, none⟩)]⟩)] "p1" "7"
  have h1 : queue_and_wait_images (fun f s t => f ++ s ++ t)
      [("p1", ⟨some [("7", ⟨none, none, none⟩)]⟩)] "p1" "7"
      = .error .notFound := by
    refine h.1.2 (Or.inr (Or.inr (Or.inr ?_)))
    exact ⟨⟨some [("7", ⟨none, none, none⟩)]⟩, [("7", ⟨none, none, none⟩)],
      ⟨none, none, none⟩, by decide, rfl, by decide, rfl, rfl, rfl⟩
  exact ⟨h1, h.2 (fun _ _ _ => (0 : Nat)) h1⟩

end ComfyApi
